import Mathlib

/-!
Verification of pympress's pointer and media-overlay components.

The definitions below are a shallow embedding of `src/pympress/pointer.py`
and `src/pympress/media_overlays/base.py`.  Pure state transitions of the
Python objects become functions on explicit state records; GUI side effects
that the properties mention (redraw requests) are recorded in the state,
other toolkit effects (cursor changes, widget allocation) are out of scope.
Python floats are modelled as rationals, Python ints as `Int`/`Nat`.
-/

namespace Pympress

/-! ## Pointer component (`pointer.py`) -/

/-- Pointer enabled but hidden, will be drawn on ctrl + click (`POINTER_HIDE = 0`). -/
def POINTER_HIDE : Int := 0

/-- Draw the pointer on the current slide (`POINTER_SHOW = 1`). -/
def POINTER_SHOW : Int := 1

/-- Pointer switched on contineously (`POINTERMODE_CONTINEOUS = 1`). -/
def POINTERMODE_CONTINEOUS : Int := 1

/-- Pointer switched on only manual (`POINTERMODE_MANUAL = 0`). -/
def POINTERMODE_MANUAL : Int := 0

/-- Pointer never switched on (`POINTERMODE_DISABLED = -1`). -/
def POINTERMODE_DISABLED : Int := -1

/-- Constant `Gdk.ModifierType.CONTROL_MASK` (bit 2 in GDK's modifier bitmask). -/
def CONTROL_MASK : Nat := 4

/-- The GTK event types `toggle_pointer` inspects; every other event type is
collapsed into `OTHER`. -/
inductive EventType where
  | BUTTON_PRESS
  | BUTTON_RELEASE
  | OTHER
deriving DecidableEq, Repr

/-- The slice of a `Gdk.Event` the pointer code reads: `event.type`,
`event.get_state()` (a modifier bitmask) and `event.get_coords()`. -/
structure Event where
  type : EventType
  state : Nat
  x : ℚ
  y : ℚ
deriving DecidableEq, Repr

/-- The slice of a `Gtk.Widget` the pointer code reads:
`get_allocated_width()` and `get_allocated_height()` (integer-valued pixel
sizes, embedded in ℚ since they are used as division denominators). -/
structure Widget where
  allocated_width : ℚ
  allocated_height : ℚ
deriving DecidableEq, Repr

/-- State of the `Pointer` object: the loaded icon (modelled by the asset
file name `GdkPixbuf.Pixbuf.new_from_file` was given), the normalized
position `pointer_pos`, the visibility `show_pointer`, the mode
`pointer_mode`, and a counter of `redraw_current_slide()` callback
invocations. -/
structure Pointer where
  pointer : String
  pointer_pos : ℚ × ℚ
  show_pointer : Int
  pointer_mode : Int
  redraws : Nat
deriving DecidableEq, Repr

/-- The class-attribute initial values of `Pointer`: an empty pixbuf,
position `(.5, .5)`, `POINTER_HIDE`, `POINTERMODE_MANUAL`. -/
def Pointer.init : Pointer :=
  { pointer := ""
    pointer_pos := (1/2, 1/2)
    show_pointer := POINTER_HIDE
    pointer_mode := POINTERMODE_MANUAL
    redraws := 0 }

/-- Method `Pointer.load_pointer(name)`: if the name is one of the three color
names, load the icon `name + '.png'`; otherwise raise
`ValueError('Wrong color name')`.  The second component records the raised
exception; the first is the object state after the call. -/
def Pointer.load_pointer (p : Pointer) (name : String) :
    Pointer × Except String Unit :=
  if name = "pointer_red" ∨ name = "pointer_green" ∨ name = "pointer_blue" then
    ({ p with pointer := name ++ ".png" }, Except.ok ())
  else
    (p, Except.error "Wrong color name")

/-- Method `Pointer.activate_pointermode(mode)`: sets `(show_pointer, pointer_mode)`
for the recognized mode strings `'continous'`, `'manual'`, `'none'` and
leaves them alone otherwise; then, if the presenter drawing area is already
mapped (`p_da_cur.get_window()` truthy, modelled by `mapped`), adjusts the
system cursor (an external effect) and requests a redraw. -/
def Pointer.activate_pointermode (p : Pointer) (mode : Option String)
    (mapped : Bool) : Pointer :=
  let p :=
    if mode = some "continous" then
      { p with show_pointer := POINTER_SHOW, pointer_mode := POINTERMODE_CONTINEOUS }
    else if mode = some "manual" then
      { p with show_pointer := POINTER_HIDE, pointer_mode := POINTERMODE_MANUAL }
    else if mode = some "none" then
      { p with show_pointer := POINTER_HIDE, pointer_mode := POINTERMODE_DISABLED }
    else p
  if mapped then { p with redraws := p.redraws + 1 } else p

/-- Method `Pointer.track_pointer(widget, event)`: when the pointer is shown, set
`pointer_pos` to the event coordinates normalized by the widget allocation,
request a redraw, and consume the event; otherwise do nothing and report the
event not consumed. -/
def Pointer.track_pointer (p : Pointer) (widget : Widget) (event : Event) :
    Pointer × Bool :=
  if p.show_pointer = POINTER_SHOW then
    ({ p with
        pointer_pos := (event.x / widget.allocated_width,
                        event.y / widget.allocated_height)
        redraws := p.redraws + 1 }, true)
  else
    (p, false)

/-- Method `Pointer.toggle_pointer(widget, event)`: the press/release state machine
deciding when the laser is pointing.  Cursor changes are external effects
not recorded in the state. -/
def Pointer.toggle_pointer (p : Pointer) (widget : Widget) (event : Event) :
    Pointer × Bool :=
  if p.pointer_mode = POINTERMODE_DISABLED then
    (p, false)
  else if p.pointer_mode = POINTERMODE_CONTINEOUS then
    (p, false)
  else
    let ctrl_pressed := event.state &&& CONTROL_MASK ≠ 0
    if ctrl_pressed ∧ event.type = EventType.BUTTON_PRESS then
      Pointer.track_pointer { p with show_pointer := POINTER_SHOW } widget event
    else if p.show_pointer = POINTER_SHOW ∧ event.type = EventType.BUTTON_RELEASE then
      ({ p with show_pointer := POINTER_HIDE, redraws := p.redraws + 1 }, true)
    else
      (p, false)

/-! ## Media overlay component (`media_overlays/base.py`) -/

/-- Python's `'{:0w}'.format(n)` for an integer `n`: decimal rendering,
left-padded with zeros to width `w`, the padding inserted after the sign. -/
def pyFormatZeroPad (w : Nat) (n : Int) : String :=
  let sign := if n < 0 then "-" else ""
  let digits := toString n.natAbs
  sign ++ String.mk (List.replicate (w - (sign.length + digits.length)) '0') ++ digits

/-- Python's `round` builtin applied to a (real-valued) number, which rounds
to the nearest integer, ties to even. -/
def pyRound (q : ℚ) : Int :=
  if q - ⌊q⌋ < 1/2 then ⌊q⌋
  else if 1/2 < q - ⌊q⌋ then ⌊q⌋ + 1
  else if ⌊q⌋ % 2 = 0 then ⌊q⌋ else ⌊q⌋ + 1

/-- Python's `divmod` on integers: floor division and the matching
(floor) remainder. -/
def pyDivmod (a b : Int) : Int × Int := (Int.fdiv a b, Int.fmod a b)

/-- The default time format string `'{:01}:{:02}'`, as the function applying
it to the two format arguments (minutes, seconds). -/
def default_time_format (m s : Int) : String :=
  pyFormatZeroPad 1 m ++ ":" ++ pyFormatZeroPad 2 s

/-- State of a `VideoOverlay` object, restricted to what the verified
operations touch: the slide-relative margins (left, top, right, bottom),
whether `media_overlay` is attached to the parent overlay stack
(`media_overlay.get_parent() is not None`), whether the GTK widget has been
shown, the current time format (a format string with two slots, modelled as
the function it denotes), and the max time `maxval` in seconds. -/
structure VideoOverlay where
  relative_margins : ℚ × ℚ × ℚ × ℚ
  attached : Bool
  overlay_visible : Bool
  time_format : Int → Int → String
  maxval : ℚ

/-- A `VideoOverlay` as constructed: not yet attached or shown, default
`time_format = '{:01}:{:02}'`, `maxval = 1`. -/
def VideoOverlay.mk0 (margins : ℚ × ℚ × ℚ × ℚ) : VideoOverlay :=
  { relative_margins := margins
    attached := false
    overlay_visible := false
    time_format := default_time_format
    maxval := 1 }

/-- Method `VideoOverlay.format_millis(sc, prog)`: format the scale position `prog`
(seconds elapsed) with the current time format, as
`self.time_format.format(*divmod(int(round(prog)), 60))`. -/
def VideoOverlay.format_millis (v : VideoOverlay) (prog : ℚ) : String :=
  let ms := pyDivmod (pyRound prog) 60
  v.time_format ms.1 ms.2

/-- Method `VideoOverlay.update_range(max_time)`: record `maxval`, resize the
slider (an external widget effect), and bake the total time into the format:
`sec = round(maxval) if maxval > .5 else 1.`, then
`time_format = '{{:01}}:{{:02}} / {:01}:{:02}'.format(*divmod(int(sec), 60))`,
whose escaped braces leave the default two-slot prefix followed by the
formatted total. -/
def VideoOverlay.update_range (v : VideoOverlay) (max_time : ℚ) : VideoOverlay :=
  let maxval := max_time
  let sec : Int := if maxval > 1/2 then pyRound maxval else 1
  let ms := pyDivmod sec 60
  { v with
      maxval := maxval
      time_format := fun m2 s2 =>
        default_time_format m2 s2 ++ " / " ++ default_time_format ms.1 ms.2 }

/-- Method `VideoOverlay.is_shown()`: whether `media_overlay` has a parent. -/
def VideoOverlay.is_shown (v : VideoOverlay) : Bool := v.attached

/-- Method `VideoOverlay.show()`: refuse (only logging a warning) when
`min(relative_margins) < 0`; otherwise attach the overlay to the parent
stack if it is not already attached (also reordering, resizing and queueing
a draw, which touch no modelled state), then show the widget. -/
def VideoOverlay.show (v : VideoOverlay) : VideoOverlay :=
  if min (min v.relative_margins.1 v.relative_margins.2.1)
      (min v.relative_margins.2.2.1 v.relative_margins.2.2.2) < 0 then
    v
  else
    let v := if ¬ v.attached then { v with attached := true } else v
    { v with overlay_visible := true }

/-! ## Helper lemmas -/

lemma pyRound_intCast (n : ℤ) : pyRound (n : ℚ) = n := by
  unfold pyRound
  rw [Int.floor_intCast]
  norm_num

lemma pyRound_natCast (n : ℕ) : pyRound (n : ℚ) = (n : ℤ) := by
  rw [show ((n : ℚ)) = ((n : ℤ) : ℚ) by push_cast; ring, pyRound_intCast]

lemma fdiv_natCast_sixty (n : ℕ) : Int.fdiv (n : ℤ) 60 = ((n / 60 : ℕ) : ℤ) := by
  rw [show ((60 : ℤ)) = ((60 : ℕ) : ℤ) from rfl, ← Int.ofNat_fdiv]

lemma fmod_natCast_sixty (n : ℕ) : Int.fmod (n : ℤ) 60 = ((n % 60 : ℕ) : ℤ) := by
  rw [show ((60 : ℤ)) = ((60 : ℕ) : ℤ) from rfl, ← Int.ofNat_fmod]

lemma pyFormatZeroPad_two_len {s : ℤ} (h0 : 0 ≤ s) (h60 : s < 60) :
    (pyFormatZeroPad 2 s).length = 2 := by
  lift s to ℕ using h0
  have hn : s < 60 := by exact_mod_cast h60
  revert hn
  exact (by decide : ∀ m : ℕ, m < 60 → (pyFormatZeroPad 2 (m : ℤ)).length = 2) s

lemma format_millis_mk0 (m : ℚ × ℚ × ℚ × ℚ) (q : ℚ) :
    (VideoOverlay.mk0 m).format_millis q =
      default_time_format (pyDivmod (pyRound q) 60).1 (pyDivmod (pyRound q) 60).2 := rfl

/-- Concrete states used by the witness theorems below. -/
def wTest : Widget := { allocated_width := 200, allocated_height := 100 }

/-- A motion-like event at `(100, 50)` with no modifier held. -/
def eTest : Event := { type := EventType.OTHER, state := 0, x := 100, y := 50 }

/-- The initial pointer with visibility switched to `POINTER_SHOW`. -/
def pShown : Pointer := { Pointer.init with show_pointer := POINTER_SHOW }

/-! ## Theorems for the claims -/

/-- Claim C2: `activate_pointermode('continous')` sets `(visibility, mode)` to
`(SHOWN, CONTINUOUS)`; `'manual'` sets `(HIDDEN, MANUAL)`; `'none'` sets
`(HIDDEN, DISABLED)` — for every starting state and whether or not the
drawing area is mapped. -/
theorem activate_pointermode_modes (p : Pointer) (mapped : Bool) :
    ((p.activate_pointermode (some "continous") mapped).show_pointer = POINTER_SHOW ∧
     (p.activate_pointermode (some "continous") mapped).pointer_mode = POINTERMODE_CONTINEOUS) ∧
    ((p.activate_pointermode (some "manual") mapped).show_pointer = POINTER_HIDE ∧
     (p.activate_pointermode (some "manual") mapped).pointer_mode = POINTERMODE_MANUAL) ∧
    ((p.activate_pointermode (some "none") mapped).show_pointer = POINTER_HIDE ∧
     (p.activate_pointermode (some "none") mapped).pointer_mode = POINTERMODE_DISABLED) := by
  cases mapped <;> simp [Pointer.activate_pointermode]

/-- Claim C3: with the default time format (before any duration is known),
`format_millis` maps a second count `n` to `n / 60` minutes (unpadded) and
`n % 60` seconds (zero-padded to two digits); in particular
`0 ↦ "0:00"`, `59 ↦ "0:59"`, `60 ↦ "1:00"`, `125 ↦ "2:05"`. -/
theorem format_millis_default (m : ℚ × ℚ × ℚ × ℚ) :
    (VideoOverlay.mk0 m).format_millis 0 = "0:00" ∧
    (VideoOverlay.mk0 m).format_millis 59 = "0:59" ∧
    (VideoOverlay.mk0 m).format_millis 60 = "1:00" ∧
    (VideoOverlay.mk0 m).format_millis 125 = "2:05" ∧
    ∀ n : ℕ, (VideoOverlay.mk0 m).format_millis (n : ℚ) =
      pyFormatZeroPad 1 ((n / 60 : ℕ) : ℤ) ++ ":" ++ pyFormatZeroPad 2 ((n % 60 : ℕ) : ℤ) := by
  refine ⟨?_, ?_, ?_, ?_, fun n => ?_⟩
  · rw [format_millis_mk0, show pyRound (0 : ℚ) = 0 by
      rw [show (0 : ℚ) = ((0 : ℤ) : ℚ) by norm_num, pyRound_intCast]]
    decide
  · rw [format_millis_mk0, show pyRound (59 : ℚ) = 59 by
      rw [show (59 : ℚ) = ((59 : ℤ) : ℚ) by norm_num, pyRound_intCast]]
    decide
  · rw [format_millis_mk0, show pyRound (60 : ℚ) = 60 by
      rw [show (60 : ℚ) = ((60 : ℤ) : ℚ) by norm_num, pyRound_intCast]]
    decide
  · rw [format_millis_mk0, show pyRound (125 : ℚ) = 125 by
      rw [show (125 : ℚ) = ((125 : ℤ) : ℚ) by norm_num, pyRound_intCast]]
    decide
  · simp [VideoOverlay.format_millis, VideoOverlay.mk0, pyDivmod, pyRound_natCast,
          fdiv_natCast_sixty, fmod_natCast_sixty, default_time_format]

/-- Claim C6: `track_pointer` with the pointer shown sets the position to
exactly `(event_x / widget_width, event_y / widget_height)`, requests one
redraw and consumes the event; with the pointer hidden it leaves the state
unchanged and does not consume the event. -/
theorem track_pointer_update :
    (∀ (p : Pointer) (w : Widget) (e : Event),
       p.show_pointer = POINTER_SHOW →
       p.track_pointer w e =
         ({ p with
             pointer_pos := (e.x / w.allocated_width, e.y / w.allocated_height)
             redraws := p.redraws + 1 }, true)) ∧
    (∀ (p : Pointer) (w : Widget) (e : Event),
       p.show_pointer = POINTER_HIDE →
       p.track_pointer w e = (p, false)) := by
  constructor
  · intro p w e h
    simp [Pointer.track_pointer, h]
  · intro p w e h
    rw [Pointer.track_pointer, if_neg]
    rw [h]
    decide

/-- Witness for claim C6 at a concrete shown and a concrete hidden state. -/
theorem track_pointer_update_witness :
    (pShown.track_pointer wTest eTest).1.pointer_pos = (1/2, 1/2) ∧
    (pShown.track_pointer wTest eTest).2 = true ∧
    Pointer.init.track_pointer wTest eTest = (Pointer.init, false) := by
  have h1 := track_pointer_update.1 pShown wTest eTest rfl
  refine ⟨?_, by rw [h1], track_pointer_update.2 Pointer.init wTest eTest rfl⟩
  rw [h1]
  show (eTest.x / wTest.allocated_width, eTest.y / wTest.allocated_height) = (1/2, 1/2)
  norm_num [eTest, wTest]

/-- Claim C7: `load_pointer` succeeds exactly on the three names
`pointer_red`, `pointer_green`, `pointer_blue`, and raises
`ValueError('Wrong color name')` if and only if the name is not one of
those three. -/
theorem load_pointer_valid_names (p : Pointer) (name : String) :
    ((p.load_pointer name).2 = Except.ok () ↔
      (name = "pointer_red" ∨ name = "pointer_green" ∨ name = "pointer_blue")) ∧
    ((p.load_pointer name).2 = Except.error "Wrong color name" ↔
      ¬ (name = "pointer_red" ∨ name = "pointer_green" ∨ name = "pointer_blue")) := by
  by_cases h : name = "pointer_red" ∨ name = "pointer_green" ∨ name = "pointer_blue" <;>
    simp [Pointer.load_pointer, h]

/-- Claim C9: `activate_pointermode` with any argument other than the three
recognized strings (for instance `None` or the correctly spelled
`'continuous'`) leaves both `show_pointer` and `pointer_mode` unchanged. -/
theorem activate_pointermode_frame (p : Pointer) (mode : Option String) (mapped : Bool)
    (h1 : mode ≠ some "continous") (h2 : mode ≠ some "manual") (h3 : mode ≠ some "none") :
    (p.activate_pointermode mode mapped).show_pointer = p.show_pointer ∧
    (p.activate_pointermode mode mapped).pointer_mode = p.pointer_mode := by
  cases mapped <;> simp [Pointer.activate_pointermode, h1, h2, h3]

/-- Witness for claim C9: the correctly spelled `'continuous'` is not
recognized and changes neither field. -/
theorem activate_pointermode_frame_witness :
    (Pointer.init.activate_pointermode (some "continuous") true).show_pointer =
      Pointer.init.show_pointer ∧
    (Pointer.init.activate_pointermode (some "continuous") true).pointer_mode =
      Pointer.init.pointer_mode :=
  activate_pointermode_frame Pointer.init (some "continuous") true
    (by decide) (by decide) (by decide)

/-- Claim C10: when `load_pointer` raises its `ValueError`, the object state
(in particular the loaded icon) is unchanged: the exception is raised before
any assignment. -/
theorem load_pointer_error_frame (p : Pointer) (name : String)
    (h : (p.load_pointer name).2 = Except.error "Wrong color name") :
    (p.load_pointer name).1 = p := by
  by_cases hv : name = "pointer_red" ∨ name = "pointer_green" ∨ name = "pointer_blue"
  · simp [Pointer.load_pointer, hv] at h
  · simp [Pointer.load_pointer, hv]

/-- Witness for claim C10 at the invalid name `pointer_pink`. -/
theorem load_pointer_error_frame_witness :
    (Pointer.init.load_pointer "pointer_pink").1 = Pointer.init :=
  load_pointer_error_frame Pointer.init "pointer_pink" rfl

/-- The initial pointer with the mode switched to `POINTERMODE_DISABLED`. -/
def pDisabled : Pointer := { Pointer.init with pointer_mode := POINTERMODE_DISABLED }

/-- A button press at `(100, 50)` with the control modifier held. -/
def eCtrlPress : Event :=
  { type := EventType.BUTTON_PRESS, state := CONTROL_MASK, x := 100, y := 50 }

/-- A button release at `(100, 50)` with no modifier held. -/
def eRelease : Event := { type := EventType.BUTTON_RELEASE, state := 0, x := 100, y := 50 }

/-- A ctrl-press whose coordinates lie outside the 200×100 widget. -/
def eCtrlPressFar : Event :=
  { type := EventType.BUTTON_PRESS, state := CONTROL_MASK, x := 300, y := 50 }

/-- Claim C1: `toggle_pointer` in DISABLED or CONTINEOUS mode consumes
nothing and changes nothing; in MANUAL mode a ctrl-press shows the pointer
and consumes the event, a release while shown hides it and consumes the
event, and every other event is not consumed and changes nothing. -/
theorem toggle_pointer_state_machine :
    (∀ (p : Pointer) (w : Widget) (e : Event),
       p.pointer_mode = POINTERMODE_DISABLED ∨ p.pointer_mode = POINTERMODE_CONTINEOUS →
       p.toggle_pointer w e = (p, false)) ∧
    (∀ (p : Pointer) (w : Widget) (e : Event),
       p.pointer_mode = POINTERMODE_MANUAL →
       e.state &&& CONTROL_MASK ≠ 0 → e.type = EventType.BUTTON_PRESS →
       (p.toggle_pointer w e).1.show_pointer = POINTER_SHOW ∧
       (p.toggle_pointer w e).2 = true) ∧
    (∀ (p : Pointer) (w : Widget) (e : Event),
       p.pointer_mode = POINTERMODE_MANUAL →
       p.show_pointer = POINTER_SHOW → e.type = EventType.BUTTON_RELEASE →
       (p.toggle_pointer w e).1.show_pointer = POINTER_HIDE ∧
       (p.toggle_pointer w e).2 = true) ∧
    (∀ (p : Pointer) (w : Widget) (e : Event),
       p.pointer_mode = POINTERMODE_MANUAL →
       ¬ (e.state &&& CONTROL_MASK ≠ 0 ∧ e.type = EventType.BUTTON_PRESS) →
       ¬ (p.show_pointer = POINTER_SHOW ∧ e.type = EventType.BUTTON_RELEASE) →
       p.toggle_pointer w e = (p, false)) := by
  refine ⟨?_, ?_, ?_, ?_⟩
  · intro p w e h
    rcases h with h | h <;>
      simp [Pointer.toggle_pointer, h, POINTERMODE_DISABLED, POINTERMODE_CONTINEOUS]
  · intro p w e hm hc ht
    simp [Pointer.toggle_pointer, Pointer.track_pointer, hm, hc, ht,
          POINTERMODE_MANUAL, POINTERMODE_DISABLED, POINTERMODE_CONTINEOUS, POINTER_SHOW]
  · intro p w e hm hs ht
    simp [Pointer.toggle_pointer, hm, hs, ht,
          POINTERMODE_MANUAL, POINTERMODE_DISABLED, POINTERMODE_CONTINEOUS,
          POINTER_SHOW, POINTER_HIDE]
  · intro p w e hm hnp hnr
    simp [Pointer.toggle_pointer, hm, hnp, hnr,
          POINTERMODE_MANUAL, POINTERMODE_DISABLED, POINTERMODE_CONTINEOUS]

/-- Witness for claim C1 over all four cases at concrete states. -/
theorem toggle_pointer_state_machine_witness :
    pDisabled.toggle_pointer wTest eTest = (pDisabled, false) ∧
    ((Pointer.init.toggle_pointer wTest eCtrlPress).1.show_pointer = POINTER_SHOW ∧
     (Pointer.init.toggle_pointer wTest eCtrlPress).2 = true) ∧
    ((pShown.toggle_pointer wTest eRelease).1.show_pointer = POINTER_HIDE ∧
     (pShown.toggle_pointer wTest eRelease).2 = true) ∧
    Pointer.init.toggle_pointer wTest eTest = (Pointer.init, false) :=
  ⟨toggle_pointer_state_machine.1 pDisabled wTest eTest (Or.inl rfl),
   toggle_pointer_state_machine.2.1 Pointer.init wTest eCtrlPress rfl (by decide) rfl,
   toggle_pointer_state_machine.2.2.1 pShown wTest eRelease rfl rfl rfl,
   toggle_pointer_state_machine.2.2.2 Pointer.init wTest eTest rfl (by decide) (by decide)⟩

/-- Claim C4: after `update_range(max_time)` with `max_time > 0.5`,
formatting `prog = max_time` yields `M:SS / M:SS` with two-digit zero-padded
seconds and identical sides; with `max_time ≤ 0.5` the baked-in right-hand
(total) side is `0:01`. -/
theorem update_range_total_display (v : VideoOverlay) (q : ℚ) :
    (1/2 < q →
      ∃ mm ss : ℤ, 0 ≤ ss ∧ ss < 60 ∧ (pyFormatZeroPad 2 ss).length = 2 ∧
        (v.update_range q).format_millis q =
          (pyFormatZeroPad 1 mm ++ ":" ++ pyFormatZeroPad 2 ss) ++ " / " ++
          (pyFormatZeroPad 1 mm ++ ":" ++ pyFormatZeroPad 2 ss)) ∧
    (q ≤ 1/2 → ∀ m2 s2 : ℤ,
      (v.update_range q).time_format m2 s2 =
        default_time_format m2 s2 ++ " / " ++ "0:01") := by
  constructor
  · intro hq
    have hs0 : 0 ≤ (pyRound q).fmod 60 := Int.fmod_nonneg' _ (by norm_num)
    have hs60 : (pyRound q).fmod 60 < 60 := Int.fmod_lt_of_pos _ (by norm_num)
    refine ⟨(pyRound q).fdiv 60, (pyRound q).fmod 60, hs0, hs60,
      pyFormatZeroPad_two_len hs0 hs60, ?_⟩
    simp only [VideoOverlay.update_range, VideoOverlay.format_millis, pyDivmod, hq,
               ite_true, default_time_format]
  · intro hq m2 s2
    have hq' : ¬ (1/2 < q) := not_lt.mpr hq
    have h01 : default_time_format (Int.fdiv 1 60) (Int.fmod 1 60) = "0:01" := by decide
    simp only [VideoOverlay.update_range, hq', ite_false, pyDivmod]
    rw [h01]

/-- Witness for claim C4 at the durations `125` and `1/4`. -/
theorem update_range_total_display_witness :
    (∃ mm ss : ℤ, 0 ≤ ss ∧ ss < 60 ∧ (pyFormatZeroPad 2 ss).length = 2 ∧
        ((VideoOverlay.mk0 (0, 0, 0, 0)).update_range 125).format_millis 125 =
          (pyFormatZeroPad 1 mm ++ ":" ++ pyFormatZeroPad 2 ss) ++ " / " ++
          (pyFormatZeroPad 1 mm ++ ":" ++ pyFormatZeroPad 2 ss)) ∧
    (∀ m2 s2 : ℤ,
      ((VideoOverlay.mk0 (0, 0, 0, 0)).update_range (1/4)).time_format m2 s2 =
        default_time_format m2 s2 ++ " / " ++ "0:01") :=
  ⟨(update_range_total_display (VideoOverlay.mk0 (0, 0, 0, 0)) 125).1 (by norm_num),
   (update_range_total_display (VideoOverlay.mk0 (0, 0, 0, 0)) (1/4)).2 (by norm_num)⟩

/-- Claim C5: `show()` with any negative margin changes nothing at all;
with all margins non-negative it attaches and shows the overlay. -/
theorem show_margin_guard :
    (∀ v : VideoOverlay,
       v.relative_margins.1 < 0 ∨ v.relative_margins.2.1 < 0 ∨
       v.relative_margins.2.2.1 < 0 ∨ v.relative_margins.2.2.2 < 0 →
       v.show = v) ∧
    (∀ v : VideoOverlay,
       0 ≤ v.relative_margins.1 → 0 ≤ v.relative_margins.2.1 →
       0 ≤ v.relative_margins.2.2.1 → 0 ≤ v.relative_margins.2.2.2 →
       (v.show).attached = true ∧ (v.show).overlay_visible = true) := by
  constructor
  · intro v h
    have hmin : min (min v.relative_margins.1 v.relative_margins.2.1)
        (min v.relative_margins.2.2.1 v.relative_margins.2.2.2) < 0 := by
      rcases h with h | h | h | h
      · exact lt_of_le_of_lt (le_trans (min_le_left _ _) (min_le_left _ _)) h
      · exact lt_of_le_of_lt (le_trans (min_le_left _ _) (min_le_right _ _)) h
      · exact lt_of_le_of_lt (le_trans (min_le_right _ _) (min_le_left _ _)) h
      · exact lt_of_le_of_lt (le_trans (min_le_right _ _) (min_le_right _ _)) h
    simp [VideoOverlay.show, hmin]
  · intro v h1 h2 h3 h4
    have hmin : ¬ (min (min v.relative_margins.1 v.relative_margins.2.1)
        (min v.relative_margins.2.2.1 v.relative_margins.2.2.2) < 0) :=
      not_lt.mpr (le_min (le_min h1 h2) (le_min h3 h4))
    by_cases hatt : v.attached <;> simp [VideoOverlay.show, hmin, hatt]

/-- Witness for claim C5 at a negative-margin and an all-zero-margin overlay. -/
theorem show_margin_guard_witness :
    (VideoOverlay.mk0 (-1, 0, 0, 0)).show = VideoOverlay.mk0 (-1, 0, 0, 0) ∧
    ((VideoOverlay.mk0 (0, 0, 0, 0)).show).attached = true ∧
    ((VideoOverlay.mk0 (0, 0, 0, 0)).show).overlay_visible = true :=
  ⟨show_margin_guard.1 (VideoOverlay.mk0 (-1, 0, 0, 0))
     (Or.inl (by norm_num [VideoOverlay.mk0])),
   show_margin_guard.2 (VideoOverlay.mk0 (0, 0, 0, 0))
     (by norm_num [VideoOverlay.mk0]) (by norm_num [VideoOverlay.mk0])
     (by norm_num [VideoOverlay.mk0]) (by norm_num [VideoOverlay.mk0])⟩

/-- Membership of a normalized position in the unit square `[0,1]×[0,1]`. -/
def inUnitSquare (pos : ℚ × ℚ) : Prop :=
  0 ≤ pos.1 ∧ pos.1 ≤ 1 ∧ 0 ≤ pos.2 ∧ pos.2 ≤ 1

/-- Claim C8 counterexample: from the initial state, a single ctrl-press
whose coordinates lie outside the widget (x = 300 on a 200-wide widget)
drives `pointer_pos` to `(3/2, 1/2)`, outside the unit square: the code
never clamps. -/
theorem pointer_pos_escape_cex :
    (Pointer.init.toggle_pointer wTest eCtrlPressFar).1.pointer_pos.1 = 3/2 ∧
    ¬ ((Pointer.init.toggle_pointer wTest eCtrlPressFar).1.pointer_pos.1 ≤ 1) := by
  have h : (Pointer.init.toggle_pointer wTest eCtrlPressFar).1.pointer_pos.1 =
      (300 : ℚ) / 200 := rfl
  constructor <;> rw [h] <;> norm_num

/-- Claim C8 as amended: the position starts in the unit square, and every
pointer operation keeps it there as long as input events carry coordinates
within the widget's (positive) allocated size; nothing clamps coordinates
outside the widget. -/
theorem pointer_pos_in_unit_square :
    inUnitSquare Pointer.init.pointer_pos ∧
    (∀ (p : Pointer) (w : Widget) (e : Event),
       inUnitSquare p.pointer_pos →
       0 < w.allocated_width → 0 < w.allocated_height →
       0 ≤ e.x → e.x ≤ w.allocated_width →
       0 ≤ e.y → e.y ≤ w.allocated_height →
       inUnitSquare (p.track_pointer w e).1.pointer_pos ∧
       inUnitSquare (p.toggle_pointer w e).1.pointer_pos) ∧
    (∀ (p : Pointer) (mode : Option String) (mapped : Bool),
       inUnitSquare p.pointer_pos →
       inUnitSquare (p.activate_pointermode mode mapped).pointer_pos) ∧
    (∀ (p : Pointer) (name : String),
       inUnitSquare p.pointer_pos →
       inUnitSquare (p.load_pointer name).1.pointer_pos) := by
  have tr : ∀ (p : Pointer) (w : Widget) (e : Event),
      inUnitSquare p.pointer_pos →
      0 < w.allocated_width → 0 < w.allocated_height →
      0 ≤ e.x → e.x ≤ w.allocated_width →
      0 ≤ e.y → e.y ≤ w.allocated_height →
      inUnitSquare (p.track_pointer w e).1.pointer_pos := by
    intro p w e hp hw hh hx0 hxw hy0 hyh
    by_cases hs : p.show_pointer = POINTER_SHOW
    · simp only [Pointer.track_pointer, if_pos hs]
      exact ⟨div_nonneg hx0 (le_of_lt hw), (div_le_one hw).mpr hxw,
             div_nonneg hy0 (le_of_lt hh), (div_le_one hh).mpr hyh⟩
    · simp only [Pointer.track_pointer, if_neg hs]
      exact hp
  refine ⟨by norm_num [Pointer.init, inUnitSquare], ?_, ?_, ?_⟩
  · intro p w e hp hw hh hx0 hxw hy0 hyh
    refine ⟨tr p w e hp hw hh hx0 hxw hy0 hyh, ?_⟩
    show inUnitSquare (Prod.fst (Pointer.toggle_pointer p w e)).pointer_pos
    rw [Pointer.toggle_pointer]
    dsimp only
    split_ifs with h1 h2 h3 h4
    · exact hp
    · exact hp
    · exact tr { p with show_pointer := POINTER_SHOW } w e hp hw hh hx0 hxw hy0 hyh
    · exact hp
    · exact hp
  · intro p mode mapped hp
    unfold Pointer.activate_pointermode
    split_ifs <;> exact hp
  · intro p name hp
    unfold Pointer.load_pointer
    split_ifs <;> exact hp

/-- Witness for the amended claim C8 at concrete states and events. -/
theorem pointer_pos_in_unit_square_witness :
    inUnitSquare (pShown.track_pointer wTest eTest).1.pointer_pos ∧
    inUnitSquare (Pointer.init.toggle_pointer wTest eCtrlPress).1.pointer_pos ∧
    inUnitSquare (Pointer.init.activate_pointermode (some "none") true).pointer_pos ∧
    inUnitSquare (Pointer.init.load_pointer "pointer_red").1.pointer_pos := by
  have hsq : inUnitSquare Pointer.init.pointer_pos := pointer_pos_in_unit_square.1
  refine ⟨?_, ?_, ?_, ?_⟩
  · exact (pointer_pos_in_unit_square.2.1 pShown wTest eTest hsq
      (by norm_num [wTest]) (by norm_num [wTest]) (by norm_num [eTest])
      (by norm_num [eTest, wTest]) (by norm_num [eTest]) (by norm_num [eTest, wTest])).1
  · exact (pointer_pos_in_unit_square.2.1 Pointer.init wTest eCtrlPress hsq
      (by norm_num [wTest]) (by norm_num [wTest]) (by norm_num [eCtrlPress])
      (by norm_num [eCtrlPress, wTest]) (by norm_num [eCtrlPress])
      (by norm_num [eCtrlPress, wTest])).2
  · exact pointer_pos_in_unit_square.2.2.1 Pointer.init (some "none") true hsq
  · exact pointer_pos_in_unit_square.2.2.2 Pointer.init "pointer_red" hsq

end Pympress
